import Mathlib

/-!
Shallow embedding of the lead-capture webhook API (`webhook_api.py`) and the
companion dashboard (`dashboard_streamlit.py`): the property-type classifier,
the two ingestion endpoints with their required-field validation, the sheet
row layout, and the `dados-dashboard` aggregation endpoint.

Python strings are modelled as `List Char`; Python JSON values as `PyVal`;
a JSON object / spreadsheet row dict as an association list `List (String × PyVal)`.
-/

/-- PyVal models a Python/JSON scalar value as it appears in a request payload
or a spreadsheet cell: a string, an integer, a boolean, or None/null. -/
inductive PyVal where
  | str (s : List Char)
  | int (n : Int)
  | bool (b : Bool)
  | null
deriving DecidableEq, Repr

/-- Python truthiness (`bool(v)`) for the modelled values: a string is truthy
iff non-empty, an int iff non-zero, a bool is itself, None is falsy. -/
def pyTruthy : PyVal → Bool
  | PyVal.str s => !s.isEmpty
  | PyVal.int n => n != 0
  | PyVal.bool b => b
  | PyVal.null => false

/-- Python `str(v)` for the modelled values. -/
def pyStrOf : PyVal → List Char
  | PyVal.str s => s
  | PyVal.int n => (toString n).toList
  | PyVal.bool true => "True".toList
  | PyVal.bool false => "False".toList
  | PyVal.null => "None".toList

/-- Python `str.upper` on one character, for the character ranges that occur in
this repository: ASCII lowercase and the Latin-1 accented lowercase block
(`à`–`þ`, excluding `÷`), each of which Python maps 32 codepoints down. -/
def pyUpperChar (c : Char) : Char :=
  if ('a' ≤ c ∧ c ≤ 'z') ∨ (('à' ≤ c ∧ c ≤ 'þ') ∧ c ≠ '÷') then
    Char.ofNat (c.toNat - 32)
  else c

/-- Python `str.lower` on one character, inverse ranges of `pyUpperChar`. -/
def pyLowerChar (c : Char) : Char :=
  if ('A' ≤ c ∧ c ≤ 'Z') ∨ (('À' ≤ c ∧ c ≤ 'Þ') ∧ c ≠ '×') then
    Char.ofNat (c.toNat + 32)
  else c

/-- Python `str.upper` over a whole string. -/
def pyUpper (s : List Char) : List Char := s.map pyUpperChar

/-- Python `str.lower` over a whole string. -/
def pyLower (s : List Char) : List Char := s.map pyLowerChar

/-- Whitespace characters removed by Python `str.strip`. -/
def pySpace (c : Char) : Bool :=
  c = ' ' ∨ c = Char.ofNat 9 ∨ c = Char.ofNat 10 ∨ c = Char.ofNat 13 ∨
    c = Char.ofNat 11 ∨ c = Char.ofNat 12

/-- Python `str.strip`: drop whitespace from both ends. -/
def pyStrip (s : List Char) : List Char :=
  ((s.dropWhile pySpace).reverse.dropWhile pySpace).reverse

/-- Python substring test `needle in hay`. -/
def pyContains (needle hay : List Char) : Bool :=
  hay.tails.any fun t => needle.isPrefixOf t

/-- The normalisation `str(reference).upper().strip()` applied by both copies of
`identify_property_type` (webhook_api.py line 87, dashboard_streamlit.py line 90),
starting from the already-stringified value. -/
def normRef (s : List Char) : List Char := pyStrip (pyUpper s)

/-- Prefix pattern `'CA'` of the first prefix rule. -/
def pfxCA : List Char := "CA".toList

/-- Prefix pattern `'AP'` of the second prefix rule. -/
def pfxAP : List Char := "AP".toList

/-- Prefix pattern `'TR'` of the third prefix rule. -/
def pfxTR : List Char := "TR".toList

/-- Prefix pattern `'CO'` of the fourth prefix rule. -/
def pfxCO : List Char := "CO".toList

/-- Normalised campaign name `'WIND OCEANICA'`. -/
def kwWIND : List Char := "WIND OCEANICA".toList

/-- Normalised campaign name `'TRESOR CAMBOINHAS'`. -/
def kwTRESOR : List Char := "TRESOR CAMBOINHAS".toList

/-- Keyword `'CASA'`. -/
def kwCASA : List Char := "CASA".toList

/-- Keyword `'APARTAMENTO'`. -/
def kwAPARTAMENTO : List Char := "APARTAMENTO".toList

/-- Keyword `'APT'`. -/
def kwAPT : List Char := "APT".toList

/-- Keyword `'TERRENO'`. -/
def kwTERRENO : List Char := "TERRENO".toList

/-- Keyword `'COMERCIAL'`. -/
def kwCOMERCIAL : List Char := "COMERCIAL".toList

/-- Keyword `'LOJA'`. -/
def kwLOJA : List Char := "LOJA".toList

/-- Keyword `'SALA'`. -/
def kwSALA : List Char := "SALA".toList

/-- Keyword `'LANÇAMENTO'` (accented). -/
def kwLANC1 : List Char := "LANÇAMENTO".toList

/-- Keyword `'LANCAMENTO'` (unaccented). -/
def kwLANC2 : List Char := "LANCAMENTO".toList

/-- The rule chain shared verbatim by the two copies of `identify_property_type`
(webhook_api.py lines 89-112 and dashboard_streamlit.py lines 92-115 are
textually identical): prefix rules, then the exact campaign-name rule, then
keyword containment, else `Outros`. Input is the normalised reference. -/
def classifyRef (ref : List Char) : String :=
  if pfxCA.isPrefixOf ref then "Casa"
  else if pfxAP.isPrefixOf ref then "Apartamento"
  else if pfxTR.isPrefixOf ref then "Terreno"
  else if pfxCO.isPrefixOf ref then "Comercial"
  else if ref = kwWIND ∨ ref = kwTRESOR then "Lançamento"
  else if pyContains kwCASA ref then "Casa"
  else if pyContains kwAPARTAMENTO ref || pyContains kwAPT ref then "Apartamento"
  else if pyContains kwTERRENO ref then "Terreno"
  else if pyContains kwCOMERCIAL ref || pyContains kwLOJA ref ||
      pyContains kwSALA ref then "Comercial"
  else if pyContains kwLANC1 ref || pyContains kwLANC2 ref then "Lançamento"
  else "Outros"

/-- Disjunction of every guard of the `classifyRef` rule chain: true iff some
prefix, campaign-name, or keyword rule matches the normalised reference. -/
def matchesAnyRule (ref : List Char) : Bool :=
  pfxCA.isPrefixOf ref || pfxAP.isPrefixOf ref ||
  pfxTR.isPrefixOf ref || pfxCO.isPrefixOf ref ||
  decide (ref = kwWIND ∨ ref = kwTRESOR) ||
  pyContains kwCASA ref ||
  (pyContains kwAPARTAMENTO ref || pyContains kwAPT ref) ||
  pyContains kwTERRENO ref ||
  (pyContains kwCOMERCIAL ref || pyContains kwLOJA ref ||
    pyContains kwSALA ref) ||
  (pyContains kwLANC1 ref || pyContains kwLANC2 ref)

namespace WebhookApi

/-- The classifier `identify_property_type` of webhook_api.py lines 82-112:
`if not reference: return 'Indefinido'`, then normalise and run the rule chain. -/
def identify_property_type (reference : PyVal) : String :=
  if pyTruthy reference = false then "Indefinido"
  else classifyRef (normRef (pyStrOf reference))

end WebhookApi

namespace DashboardStreamlit

/-- The classifier `identify_property_type` of dashboard_streamlit.py lines
85-115. It differs from the webhook copy only in its first guard:
`if pd.isna(reference): return 'Indefinido'`. `pd.isna` is true for None/NaN
and false for every string, including the empty string, so the input is
modelled as `Option (List Char)` with `none` standing for None/NaN. -/
def identify_property_type (reference : Option (List Char)) : String :=
  match reference with
  | Option.none => "Indefinido"
  | some s => classifyRef (normRef s)

end DashboardStreamlit

/-- A request payload: a JSON object modelled as an association list (Python
dict with string keys). `field not in data` is `lookup` returning `none`. -/
abbrev Payload := List (String × PyVal)

namespace WebhookApi

/-- Error outcomes of the two ingestion endpoints, both reported as HTTP 400:
a missing/empty required field (naming the field, webhook_api.py line 148),
or an invalid launch name (line 156). -/
inductive ApiError where
  | missingField (f : String)
  | invalidLaunch
deriving DecidableEq, Repr

/-- Required fields of `captura_imovel_geral`, in source order (line 205). -/
def requiredGeral : List String :=
  ["user_name", "user_phone", "imovel_referencia", "visit_interest", "summary"]

/-- Required fields of `captura_lancamento`, in source order (line 143). -/
def requiredLanc : List String :=
  ["user_name", "user_phone", "lancamento", "visit_interest", "summary"]

/-- The fixed launch set `valid_launches` of webhook_api.py line 152. -/
def validLaunches : List PyVal :=
  [PyVal.str "Wind Oceanica".toList, PyVal.str "Tresor Camboinhas".toList]

/-- Field access `data[field]` (only reached after the presence check). -/
def getF (p : Payload) (f : String) : PyVal := (List.lookup f p).getD PyVal.null

/-- The per-field validation test: `field in data and bool(data[field])`,
the negation of `field not in data or not data[field]` (lines 145, 207). -/
def fieldOk (p : Payload) (f : String) : Bool :=
  match List.lookup f p with
  | some v => pyTruthy v
  | Option.none => false

/-- First required field that fails validation, scanning in source order. -/
def firstBad (p : Payload) (req : List String) : Option String :=
  req.find? fun f => !fieldOk p f

/-- The header row written by `setup_headers` (webhook_api.py lines 73-80). -/
def sheetHeaders : List String :=
  ["Data/Hora", "Nome", "Telefone", "Imóvel/Referência",
   "Interesse Visita", "Resumo Conversa", "Origem", "ID", "Status", "Tipo Imóvel"]

/-- The endpoint `captura_imovel_geral` (webhook_api.py lines 198-254), with the
clock (`format_timestamp()`) and the generated id (`generate_id()`) passed in as
parameters; the result is the 10-field `row_data` appended to the sheet, or the
validation error returned with status 400. -/
def captura_imovel_geral (p : Payload) (ts idv : List Char) :
    Except ApiError (List PyVal) :=
  match firstBad p requiredGeral with
  | some f => Except.error (ApiError.missingField f)
  | Option.none =>
      Except.ok [PyVal.str ts,
        getF p "user_name",
        getF p "user_phone",
        getF p "imovel_referencia",
        getF p "visit_interest",
        getF p "summary",
        PyVal.str "IA Gabriela - Imóvel".toList,
        PyVal.str idv,
        PyVal.str "Novo".toList,
        PyVal.str (identify_property_type (getF p "imovel_referencia")).toList]

/-- The endpoint `captura_lancamento` (webhook_api.py lines 136-196): required
fields first, then `data['lancamento'] not in valid_launches` rejects, else the
10-field `row_data` with the fixed type `Lançamento` is appended. -/
def captura_lancamento (p : Payload) (ts idv : List Char) :
    Except ApiError (List PyVal) :=
  match firstBad p requiredLanc with
  | some f => Except.error (ApiError.missingField f)
  | Option.none =>
      if getF p "lancamento" ∈ validLaunches then
        Except.ok [PyVal.str ts,
          getF p "user_name",
          getF p "user_phone",
          getF p "lancamento",
          getF p "visit_interest",
          getF p "summary",
          PyVal.str "IA Gabriela - Lançamento".toList,
          PyVal.str idv,
          PyVal.str "Novo".toList,
          PyVal.str "Lançamento".toList]
      else Except.error ApiError.invalidLaunch

end WebhookApi

/-- A spreadsheet record as returned by `worksheet.get_all_records()`: a dict
keyed by the header names, modelled as an association list. -/
abbrev Rec := List (String × PyVal)

/-- Python `round(q)` to an integer, rounding halves to even, modelled on
exact rationals. -/
def pyRound (q : ℚ) : Int :=
  let f : Int := ⌊q⌋
  let r : ℚ := q - (f : ℚ)
  if r < 1 / 2 then f
  else if 1 / 2 < r then f + 1
  else if f % 2 = 0 then f else f + 1

/-- Python `round(q, 1)` to one decimal place, on exact rationals. -/
def pyRound1 (q : ℚ) : ℚ := (pyRound (q * 10) : ℚ) / 10

namespace WebhookApi

/-- The interest test of webhook_api.py line 279:
`str(row.get('Interesse Visita', '')).lower() in ['true', 'sim', 'yes']`. -/
def isInteresse (r : Rec) : Bool :=
  let s := pyLower (pyStrOf ((List.lookup "Interesse Visita" r).getD (PyVal.str [])))
  s = "true".toList ∨ s = "sim".toList ∨ s = "yes".toList

/-- The per-type counting dict `tipos_count` (lines 282-285): a Python dict in
insertion order, incremented key by key. -/
def bump (m : List (PyVal × Nat)) (k : PyVal) : List (PyVal × Nat) :=
  match m with
  | [] => [(k, 1)]
  | (q, n) :: rest => if q = k then (q, n + 1) :: rest else (q, n) :: bump rest k

/-- Build `tipos_count` from all records, defaulting a missing cell to
`'Outros'` as `row.get('Tipo Imóvel', 'Outros')` does (line 284). -/
def tiposCount (records : List Rec) : List (PyVal × Nat) :=
  records.foldl (fun m r => bump m ((List.lookup "Tipo Imóvel" r).getD (PyVal.str "Outros".toList))) []

/-- Count of records whose `Imóvel/Referência` cell equals the given string
exactly (lines 288-289). A missing cell (`row.get` returning None) matches
nothing. -/
def refCount (records : List Rec) (name : List Char) : Nat :=
  records.countP fun r => List.lookup "Imóvel/Referência" r == some (PyVal.str name)

/-- The JSON object returned by the `dados-dashboard` endpoint. Fields that the
empty-data early return (lines 270-275) leaves out of the response are
`Option`-valued and `none` there. -/
structure DashboardResponse where
  status : Nat
  total_leads : Nat
  interesse_visita : Option Nat
  taxa_interesse : Option ℚ
  wind_oceanica : Option Nat
  tresor_camboinhas : Option Nat
  tipos_imovel : Option (List (PyVal × Nat))
  dados : List Rec
  ultima_atualizacao : Option (List Char)
deriving DecidableEq

/-- The endpoint `dados_dashboard` (webhook_api.py lines 256-301), with the
records read from the sheet and the clock reading (`format_timestamp()`, lines
121-125) passed in as parameters. `if not data:` returns the short empty
response; otherwise every metric is computed and `ultima_atualizacao` is the
current time. -/
def dados_dashboard (records : List Rec) (now : List Char) : DashboardResponse :=
  if records = [] then
    DashboardResponse.mk 200 0 Option.none Option.none Option.none Option.none
      Option.none [] Option.none
  else
    let total := records.length
    let interesse := records.countP isInteresse
    DashboardResponse.mk 200 total (some interesse)
      (some (if 0 < total then ((pyRound ((interesse : ℚ) / (total : ℚ) * 100) : Int) : ℚ) else 0))
      (some (refCount records "Wind Oceanica".toList))
      (some (refCount records "Tresor Camboinhas".toList))
      (some (tiposCount records))
      records
      (some now)

end WebhookApi

namespace DashboardStreamlit

/-- The `Interesse_Bool` column of dashboard_streamlit.py line 73:
`df['Interesse Visita'].str.lower().isin(['true', 'sim', 'yes'])`, per record. -/
def interesse_bool (r : Rec) : Bool :=
  let s := pyLower (pyStrOf ((List.lookup "Interesse Visita" r).getD (PyVal.str [])))
  s = "true".toList ∨ s = "sim".toList ∨ s = "yes".toList

/-- The interest rate computed by `create_metrics_cards` (dashboard_streamlit.py
line 125): the unrounded percentage, guarded to 0 on an empty frame; the source
rounds only at display time via the `:.1f` format (line 139). -/
def taxa_interesse (records : List Rec) : ℚ :=
  if 0 < records.length then
    ((records.countP interesse_bool : ℚ) / (records.length : ℚ)) * 100
  else 0

end DashboardStreamlit

/-- A dashboard response with its `ultima_atualizacao` field cleared: the part
of the `dados-dashboard` output that depends only on the stored records, not
on the clock. -/
def stripTime (r : WebhookApi.DashboardResponse) : WebhookApi.DashboardResponse :=
  WebhookApi.DashboardResponse.mk r.status r.total_leads r.interesse_visita
    r.taxa_interesse r.wind_oceanica r.tresor_camboinhas r.tipos_imovel r.dados
    Option.none

/-- Three stored records, two with `Interesse Visita = 'Sim'` and one with
`'Não'` — the worked example of the specification. -/
def exampleThreeRecords : List Rec :=
  [[("Interesse Visita", PyVal.str "Sim".toList)],
   [("Interesse Visita", PyVal.str "Sim".toList)],
   [("Interesse Visita", PyVal.str "Não".toList)]]

/-! Helper lemmas about the classifier rule chain. -/

/-- A two-character pattern is a prefix of `l` iff `l` literally begins with
those two characters. -/
lemma pair_isPrefixOf {a b : Char} {l : List Char}
    (h : [a, b].isPrefixOf l = true) : ∃ t, l = a :: b :: t := by
  match l with
  | [] => simp [List.isPrefixOf] at h
  | [c] => simp [List.isPrefixOf] at h
  | c :: d :: t =>
    simp only [List.isPrefixOf, Bool.and_eq_true, beq_iff_eq] at h
    exact ⟨t, by rw [← h.1, ← h.2.1]⟩

/-- The rule chain never yields `Indefinido`: that value comes only from the
guard before the chain. -/
lemma classifyRef_ne_indefinido (r : List Char) : classifyRef r ≠ "Indefinido" := by
  unfold classifyRef
  split_ifs <;> decide

/-- The rule chain yields `Outros` exactly when no guard of the chain holds. -/
lemma classifyRef_eq_outros_iff (r : List Char) :
    classifyRef r = "Outros" ↔ matchesAnyRule r = false := by
  unfold classifyRef matchesAnyRule
  cases h1 : pfxCA.isPrefixOf r with
  | true => simp [h1]
  | false =>
  cases h2 : pfxAP.isPrefixOf r with
  | true => simp [h1, h2]
  | false =>
  cases h3 : pfxTR.isPrefixOf r with
  | true => simp [h1, h2, h3]
  | false =>
  cases h4 : pfxCO.isPrefixOf r with
  | true => simp [h1, h2, h3, h4]
  | false =>
  by_cases h5 : r = kwWIND ∨ r = kwTRESOR
  case pos => simp [h1, h2, h3, h4, h5]
  case neg =>
  cases h6 : pyContains kwCASA r with
  | true => simp [h1, h2, h3, h4, h5, h6]
  | false =>
  cases h7 : pyContains kwAPARTAMENTO r with
  | true => simp [h1, h2, h3, h4, h5, h6, h7]
  | false =>
  cases h7b : pyContains kwAPT r with
  | true => simp [h1, h2, h3, h4, h5, h6, h7, h7b]
  | false =>
  cases h8 : pyContains kwTERRENO r with
  | true => simp [h1, h2, h3, h4, h5, h6, h7, h7b, h8]
  | false =>
  cases h9 : pyContains kwCOMERCIAL r with
  | true => simp [h1, h2, h3, h4, h5, h6, h7, h7b, h8, h9]
  | false =>
  cases h9b : pyContains kwLOJA r with
  | true => simp [h1, h2, h3, h4, h5, h6, h7, h7b, h8, h9, h9b]
  | false =>
  cases h9c : pyContains kwSALA r with
  | true => simp [h1, h2, h3, h4, h5, h6, h7, h7b, h8, h9, h9b, h9c]
  | false =>
  cases h10 : pyContains kwLANC1 r with
  | true => simp [h1, h2, h3, h4, h5, h6, h7, h7b, h8, h9, h9b, h9c, h10]
  | false =>
  cases h10b : pyContains kwLANC2 r with
  | true => simp [h1, h2, h3, h4, h5, h6, h7, h7b, h8, h9, h9b, h9c, h10, h10b]
  | false => simp [h1, h2, h3, h4, h5, h6, h7, h7b, h8, h9, h9b, h9c, h10, h10b]

/-- A non-empty string is truthy, so the webhook classifier runs the chain. -/
lemma webhook_identify_of_ne_nil {s : List Char} (h : s ≠ []) :
    WebhookApi.identify_property_type (PyVal.str s) = classifyRef (normRef s) := by
  unfold WebhookApi.identify_property_type
  have ht : pyTruthy (PyVal.str s) = true := by
    simp [pyTruthy, List.isEmpty_iff, h]
  rw [ht]
  simp [pyStrOf]

/-- The webhook classifier returns `Indefinido` exactly on the empty string
(among string inputs). -/
lemma webhook_identify_indefinido_iff (s : List Char) :
    WebhookApi.identify_property_type (PyVal.str s) = "Indefinido" ↔ s = [] := by
  constructor
  · intro h
    by_contra hne
    rw [webhook_identify_of_ne_nil hne] at h
    exact classifyRef_ne_indefinido _ h
  · rintro rfl
    rfl

/-- The dashboard classifier returns `Indefinido` exactly on None/NaN. -/
lemma dash_identify_indefinido_iff (r : Option (List Char)) :
    DashboardStreamlit.identify_property_type r = "Indefinido" ↔ r = Option.none := by
  cases r with
  | none => simp [DashboardStreamlit.identify_property_type]
  | some s =>
    simp [DashboardStreamlit.identify_property_type, classifyRef_ne_indefinido]

/-- C1: every reference whose uppercased, trimmed form starts with `CA`, `AP`,
`TR`, or `CO` is classified `Casa`, `Apartamento`, `Terreno`, or `Comercial`
respectively, by both the webhook and the dashboard classifier, regardless of
anything else the string contains — the prefix rules fire before the
campaign-name and keyword rules. -/
theorem claim_C1_prefix_rules_precedence (s : List Char) :
    (pfxCA.isPrefixOf (normRef s) = true →
        WebhookApi.identify_property_type (PyVal.str s) = "Casa" ∧
        DashboardStreamlit.identify_property_type (some s) = "Casa") ∧
    (pfxAP.isPrefixOf (normRef s) = true →
        WebhookApi.identify_property_type (PyVal.str s) = "Apartamento" ∧
        DashboardStreamlit.identify_property_type (some s) = "Apartamento") ∧
    (pfxTR.isPrefixOf (normRef s) = true →
        WebhookApi.identify_property_type (PyVal.str s) = "Terreno" ∧
        DashboardStreamlit.identify_property_type (some s) = "Terreno") ∧
    (pfxCO.isPrefixOf (normRef s) = true →
        WebhookApi.identify_property_type (PyVal.str s) = "Comercial" ∧
        DashboardStreamlit.identify_property_type (some s) = "Comercial") := by
  have hnil : ∀ a b : Char, [a, b].isPrefixOf (normRef s) = true → s ≠ [] := by
    intro a b h he
    subst he
    simp [normRef, pyStrip, pyUpper, List.isPrefixOf] at h
  refine ⟨?_, ?_, ?_, ?_⟩ <;> intro h
  · obtain ⟨t, ht⟩ := pair_isPrefixOf (a := 'C') (b := 'A') h
    refine ⟨?_, ?_⟩
    · rw [webhook_identify_of_ne_nil (hnil 'C' 'A' h), ht]
      simp [classifyRef, pfxCA, List.isPrefixOf]
    · show classifyRef (normRef s) = "Casa"
      rw [ht]
      simp [classifyRef, pfxCA, List.isPrefixOf]
  · obtain ⟨t, ht⟩ := pair_isPrefixOf (a := 'A') (b := 'P') h
    refine ⟨?_, ?_⟩
    · rw [webhook_identify_of_ne_nil (hnil 'A' 'P' h), ht]
      simp [classifyRef, pfxCA, pfxAP, List.isPrefixOf]
    · show classifyRef (normRef s) = "Apartamento"
      rw [ht]
      simp [classifyRef, pfxCA, pfxAP, List.isPrefixOf]
  · obtain ⟨t, ht⟩ := pair_isPrefixOf (a := 'T') (b := 'R') h
    refine ⟨?_, ?_⟩
    · rw [webhook_identify_of_ne_nil (hnil 'T' 'R' h), ht]
      simp [classifyRef, pfxCA, pfxAP, pfxTR, List.isPrefixOf]
    · show classifyRef (normRef s) = "Terreno"
      rw [ht]
      simp [classifyRef, pfxCA, pfxAP, pfxTR, List.isPrefixOf]
  · obtain ⟨t, ht⟩ := pair_isPrefixOf (a := 'C') (b := 'O') h
    refine ⟨?_, ?_⟩
    · rw [webhook_identify_of_ne_nil (hnil 'C' 'O' h), ht]
      simp [classifyRef, pfxCA, pfxAP, pfxTR, pfxCO, List.isPrefixOf]
    · show classifyRef (normRef s) = "Comercial"
      rw [ht]
      simp [classifyRef, pfxCA, pfxAP, pfxTR, pfxCO, List.isPrefixOf]

/-- Witness for C1 at a reference that starts with `CO` but embeds the keywords
`LANCAMENTO` and `CASA`: the `CO` prefix rule wins in both classifiers. -/
theorem claim_C1_prefix_rules_precedence_witness :
    pfxCO.isPrefixOf (normRef "COBERTURA LANCAMENTO CASA".toList) = true ∧
    WebhookApi.identify_property_type
      (PyVal.str "COBERTURA LANCAMENTO CASA".toList) = "Comercial" ∧
    DashboardStreamlit.identify_property_type
      (some "COBERTURA LANCAMENTO CASA".toList) = "Comercial" := by
  refine ⟨by decide, ?_, ?_⟩
  · exact ((claim_C1_prefix_rules_precedence _).2.2.2 (by decide)).1
  · exact ((claim_C1_prefix_rules_precedence _).2.2.2 (by decide)).2

/-- C2 as amended: the webhook classifier returns `Indefinido` exactly on
falsy references (empty string among strings, and None), while the dashboard
classifier returns `Indefinido` exactly on None/NaN and sends the empty string
through the rule chain to `Outros`; each classifier returns `Outros` exactly
when the reference reaches the rule chain and no rule matches, and both send
`XYZ123` to `Outros`. -/
theorem claim_C2_undefined_other_amended :
    (∀ s : List Char,
        WebhookApi.identify_property_type (PyVal.str s) = "Indefinido" ↔ s = []) ∧
    WebhookApi.identify_property_type PyVal.null = "Indefinido" ∧
    (∀ r : Option (List Char),
        DashboardStreamlit.identify_property_type r = "Indefinido" ↔ r = Option.none) ∧
    (∀ s : List Char, s ≠ [] →
        (WebhookApi.identify_property_type (PyVal.str s) = "Outros" ↔
          matchesAnyRule (normRef s) = false)) ∧
    (∀ s : List Char,
        DashboardStreamlit.identify_property_type (some s) = "Outros" ↔
          matchesAnyRule (normRef s) = false) ∧
    WebhookApi.identify_property_type (PyVal.str "XYZ123".toList) = "Outros" ∧
    DashboardStreamlit.identify_property_type (some "XYZ123".toList) = "Outros" := by
  refine ⟨webhook_identify_indefinido_iff, rfl, dash_identify_indefinido_iff,
    ?_, ?_, by decide, by decide⟩
  · intro s hs
    rw [webhook_identify_of_ne_nil hs]
    exact classifyRef_eq_outros_iff _
  · intro s
    exact classifyRef_eq_outros_iff _

/-- Counterexample for C2 as stated: on the empty string, the dashboard
classifier (whose null guard is `pd.isna`, false for `""`) returns `Outros`,
not `Indefinido`. -/
theorem claim_C2_undefined_other_counterexample :
    DashboardStreamlit.identify_property_type (some ([] : List Char)) = "Outros" ∧
    ¬ DashboardStreamlit.identify_property_type (some ([] : List Char)) = "Indefinido" := by
  exact ⟨by decide, by decide⟩

/-- Witness for C2 as amended, instantiating the hypothesis-bearing conjunct at
the concrete unclassifiable reference `XYZ123`. -/
theorem claim_C2_undefined_other_witness :
    "XYZ123".toList ≠ [] ∧
    (WebhookApi.identify_property_type (PyVal.str "XYZ123".toList) = "Outros" ↔
      matchesAnyRule (normRef "XYZ123".toList) = false) :=
  ⟨by decide, claim_C2_undefined_other_amended.2.2.2.1 "XYZ123".toList (by decide)⟩

/-! Helper lemmas about required-field validation. -/

/-- The first element satisfying `pred` in `pre ++ f :: post` is `f` when every
element of `pre` fails `pred` and `f` satisfies it. -/
lemma find?_append_first {α : Type} (pred : α → Bool) (pre : List α) (f : α)
    (post : List α) (hpre : ∀ g ∈ pre, pred g = false) (hf : pred f = true) :
    (pre ++ f :: post).find? pred = some f := by
  induction pre with
  | nil =>
    simpa using List.find?_cons_of_pos post hf
  | cons a l ih =>
    rw [List.cons_append, List.find?_cons_of_neg]
    · exact ih fun g hg => hpre g (List.mem_cons_of_mem a hg)
    · simp [hpre a (List.mem_cons_self a l)]

namespace WebhookApi

/-- The validation scan stops at `f` when the fields before it are all valid
and `f` is missing or falsy. -/
lemma firstBad_split (p : Payload) (req : List String) (f : String)
    (pre post : List String) (hsplit : req = pre ++ f :: post)
    (hf : fieldOk p f = false)
    (hpre : ∀ g ∈ pre, fieldOk p g = true) :
    firstBad p req = some f := by
  unfold firstBad
  rw [hsplit]
  apply find?_append_first
  · intro g hg
    simp [hpre g hg]
  · simp [hf]

/-- A failed validation scan is what `captura_imovel_geral` reports. -/
lemma captura_geral_error (p : Payload) (ts idv : List Char) (f : String)
    (h : firstBad p requiredGeral = some f) :
    captura_imovel_geral p ts idv = Except.error (ApiError.missingField f) := by
  unfold captura_imovel_geral
  rw [h]

/-- A failed validation scan is what `captura_lancamento` reports. -/
lemma captura_lanc_error (p : Payload) (ts idv : List Char) (f : String)
    (h : firstBad p requiredLanc = some f) :
    captura_lancamento p ts idv = Except.error (ApiError.missingField f) := by
  unfold captura_lancamento
  rw [h]

end WebhookApi

/-- C6: `captura_imovel_geral` checks `user_name`, `user_phone`,
`imovel_referencia`, `visit_interest`, `summary` in that order, and a payload
whose first missing-or-empty required field is `f` is rejected with a
validation error naming `f`, with nothing appended to the sheet. -/
theorem claim_C6_general_validation_first_field :
    WebhookApi.requiredGeral =
      ["user_name", "user_phone", "imovel_referencia", "visit_interest", "summary"] ∧
    ∀ (p : Payload) (ts idv : List Char) (pre post : List String) (f : String),
      WebhookApi.requiredGeral = pre ++ f :: post →
      (∀ g ∈ pre, WebhookApi.fieldOk p g = true) →
      WebhookApi.fieldOk p f = false →
      WebhookApi.captura_imovel_geral p ts idv =
          Except.error (WebhookApi.ApiError.missingField f) ∧
      ∀ row, WebhookApi.captura_imovel_geral p ts idv ≠ Except.ok row := by
  refine ⟨rfl, ?_⟩
  intro p ts idv pre post f hsplit hpre hf
  have herr := WebhookApi.captura_geral_error p ts idv f
    (WebhookApi.firstBad_split p _ f pre post hsplit hf hpre)
  refine ⟨herr, ?_⟩
  intro row hok
  rw [herr] at hok
  exact Except.noConfusion hok

/-- Witness for C6: a payload with everything valid except the absent
`summary` is rejected with an error naming `summary`. -/
theorem claim_C6_general_validation_first_field_witness :
    WebhookApi.captura_imovel_geral
        [("user_name", PyVal.str "Ana".toList), ("user_phone", PyVal.str "21999".toList),
         ("imovel_referencia", PyVal.str "CA123".toList),
         ("visit_interest", PyVal.str "Sim".toList)]
        "07/10/2025 10:00:00".toList "IMV_1".toList =
      Except.error (WebhookApi.ApiError.missingField "summary") :=
  (claim_C6_general_validation_first_field.2 _ _ _
    ["user_name", "user_phone", "imovel_referencia", "visit_interest"] [] "summary"
    rfl (by intro g hg; fin_cases hg <;> decide) (by decide)).1

/-- C7: `captura_lancamento` rejects, with a validation error, any payload
whose `lancamento` is not exactly `Wind Oceanica` or `Tresor Camboinhas`
(case-sensitive, unnormalised equality); on success the persisted row carries
the fixed property type `Lançamento` at position 9 (not a classifier output)
and the launch name itself at position 3. -/
theorem claim_C7_launch_exact_name (p : Payload) (ts idv : List Char) :
    (WebhookApi.firstBad p WebhookApi.requiredLanc = Option.none →
        WebhookApi.getF p "lancamento" ∉ WebhookApi.validLaunches →
        WebhookApi.captura_lancamento p ts idv =
          Except.error WebhookApi.ApiError.invalidLaunch) ∧
    (WebhookApi.getF p "lancamento" ∉ WebhookApi.validLaunches →
        ∀ row, WebhookApi.captura_lancamento p ts idv ≠ Except.ok row) ∧
    (∀ row, WebhookApi.captura_lancamento p ts idv = Except.ok row →
        row.get? 9 = some (PyVal.str "Lançamento".toList) ∧
        row.get? 3 = some (WebhookApi.getF p "lancamento") ∧
        WebhookApi.getF p "lancamento" ∈ WebhookApi.validLaunches) := by
  refine ⟨?_, ?_, ?_⟩
  · intro hfb hmem
    unfold WebhookApi.captura_lancamento
    rw [hfb, if_neg hmem]
  · intro hmem row hok
    unfold WebhookApi.captura_lancamento at hok
    cases hfb : WebhookApi.firstBad p WebhookApi.requiredLanc with
    | none =>
      rw [hfb, if_neg hmem] at hok
      exact Except.noConfusion hok
    | some f =>
      rw [hfb] at hok
      exact Except.noConfusion hok
  · intro row hok
    unfold WebhookApi.captura_lancamento at hok
    cases hfb : WebhookApi.firstBad p WebhookApi.requiredLanc with
    | none =>
      rw [hfb] at hok
      by_cases hmem : WebhookApi.getF p "lancamento" ∈ WebhookApi.validLaunches
      · rw [if_pos hmem] at hok
        cases hok
        exact ⟨rfl, rfl, hmem⟩
      · rw [if_neg hmem] at hok
        exact Except.noConfusion hok
    | some f =>
      rw [hfb] at hok
      exact Except.noConfusion hok

/-- Witness for C7: the near-miss `Wind Oceanica Tower` is rejected although
all required fields are present, and the exact name `Wind Oceanica` succeeds
with the fixed row positions. -/
theorem claim_C7_launch_exact_name_witness :
    WebhookApi.captura_lancamento
        [("user_name", PyVal.str "Ana".toList), ("user_phone", PyVal.str "21999".toList),
         ("lancamento", PyVal.str "Wind Oceanica Tower".toList),
         ("visit_interest", PyVal.str "Sim".toList), ("summary", PyVal.str "ok".toList)]
        "t".toList "i".toList = Except.error WebhookApi.ApiError.invalidLaunch ∧
    (WebhookApi.captura_lancamento
        [("user_name", PyVal.str "Ana".toList), ("user_phone", PyVal.str "21999".toList),
         ("lancamento", PyVal.str "Wind Oceanica".toList),
         ("visit_interest", PyVal.str "Sim".toList), ("summary", PyVal.str "ok".toList)]
        "t".toList "i".toList = Except.ok
          [PyVal.str "t".toList, PyVal.str "Ana".toList, PyVal.str "21999".toList,
           PyVal.str "Wind Oceanica".toList, PyVal.str "Sim".toList, PyVal.str "ok".toList,
           PyVal.str "IA Gabriela - Lançamento".toList, PyVal.str "i".toList,
           PyVal.str "Novo".toList, PyVal.str "Lançamento".toList] ∧
      [PyVal.str "t".toList, PyVal.str "Ana".toList, PyVal.str "21999".toList,
       PyVal.str "Wind Oceanica".toList, PyVal.str "Sim".toList, PyVal.str "ok".toList,
       PyVal.str "IA Gabriela - Lançamento".toList, PyVal.str "i".toList,
       PyVal.str "Novo".toList, PyVal.str "Lançamento".toList].get? 9 =
        some (PyVal.str "Lançamento".toList)) := by
  refine ⟨(claim_C7_launch_exact_name _ "t".toList "i".toList).1 (by decide) (by decide), rfl, ?_⟩
  exact ((claim_C7_launch_exact_name
      [("user_name", PyVal.str "Ana".toList), ("user_phone", PyVal.str "21999".toList),
       ("lancamento", PyVal.str "Wind Oceanica".toList),
       ("visit_interest", PyVal.str "Sim".toList), ("summary", PyVal.str "ok".toList)]
      "t".toList "i".toList).2.2
    [PyVal.str "t".toList, PyVal.str "Ana".toList, PyVal.str "21999".toList,
     PyVal.str "Wind Oceanica".toList, PyVal.str "Sim".toList, PyVal.str "ok".toList,
     PyVal.str "IA Gabriela - Lançamento".toList, PyVal.str "i".toList,
     PyVal.str "Novo".toList, PyVal.str "Lançamento".toList] rfl).1

/-- C8: both ingestion endpoints persist exactly 10 positional fields in the
fixed order timestamp, name, phone, reference, visit interest, summary,
source, id, status, property type — matching the fixed header row — and the
persisted status (position 8) is always `Novo`. -/
theorem claim_C8_ten_field_rows :
    WebhookApi.sheetHeaders = ["Data/Hora", "Nome", "Telefone", "Imóvel/Referência",
      "Interesse Visita", "Resumo Conversa", "Origem", "ID", "Status", "Tipo Imóvel"] ∧
    WebhookApi.sheetHeaders.length = 10 ∧
    ∀ (p : Payload) (ts idv : List Char) (row : List PyVal),
      (WebhookApi.captura_imovel_geral p ts idv = Except.ok row →
        row = [PyVal.str ts, WebhookApi.getF p "user_name", WebhookApi.getF p "user_phone",
          WebhookApi.getF p "imovel_referencia", WebhookApi.getF p "visit_interest",
          WebhookApi.getF p "summary", PyVal.str "IA Gabriela - Imóvel".toList,
          PyVal.str idv, PyVal.str "Novo".toList,
          PyVal.str (WebhookApi.identify_property_type
            (WebhookApi.getF p "imovel_referencia")).toList]) ∧
      (WebhookApi.captura_lancamento p ts idv = Except.ok row →
        row = [PyVal.str ts, WebhookApi.getF p "user_name", WebhookApi.getF p "user_phone",
          WebhookApi.getF p "lancamento", WebhookApi.getF p "visit_interest",
          WebhookApi.getF p "summary", PyVal.str "IA Gabriela - Lançamento".toList,
          PyVal.str idv, PyVal.str "Novo".toList, PyVal.str "Lançamento".toList]) ∧
      ((WebhookApi.captura_imovel_geral p ts idv = Except.ok row ∨
          WebhookApi.captura_lancamento p ts idv = Except.ok row) →
        row.length = 10 ∧ row.get? 8 = some (PyVal.str "Novo".toList)) := by
  refine ⟨rfl, rfl, ?_⟩
  intro p ts idv row
  have hg : WebhookApi.captura_imovel_geral p ts idv = Except.ok row →
      row = [PyVal.str ts, WebhookApi.getF p "user_name", WebhookApi.getF p "user_phone",
        WebhookApi.getF p "imovel_referencia", WebhookApi.getF p "visit_interest",
        WebhookApi.getF p "summary", PyVal.str "IA Gabriela - Imóvel".toList,
        PyVal.str idv, PyVal.str "Novo".toList,
        PyVal.str (WebhookApi.identify_property_type
          (WebhookApi.getF p "imovel_referencia")).toList] := by
    intro hok
    unfold WebhookApi.captura_imovel_geral at hok
    cases hfb : WebhookApi.firstBad p WebhookApi.requiredGeral with
    | none =>
      rw [hfb] at hok
      cases hok
      rfl
    | some f =>
      rw [hfb] at hok
      exact Except.noConfusion hok
  have hl : WebhookApi.captura_lancamento p ts idv = Except.ok row →
      row = [PyVal.str ts, WebhookApi.getF p "user_name", WebhookApi.getF p "user_phone",
        WebhookApi.getF p "lancamento", WebhookApi.getF p "visit_interest",
        WebhookApi.getF p "summary", PyVal.str "IA Gabriela - Lançamento".toList,
        PyVal.str idv, PyVal.str "Novo".toList, PyVal.str "Lançamento".toList] := by
    intro hok
    unfold WebhookApi.captura_lancamento at hok
    cases hfb : WebhookApi.firstBad p WebhookApi.requiredLanc with
    | none =>
      rw [hfb] at hok
      by_cases hmem : WebhookApi.getF p "lancamento" ∈ WebhookApi.validLaunches
      · rw [if_pos hmem] at hok
        cases hok
        rfl
      · rw [if_neg hmem] at hok
        exact Except.noConfusion hok
    | some f =>
      rw [hfb] at hok
      exact Except.noConfusion hok
  refine ⟨hg, hl, ?_⟩
  rintro (hok | hok)
  · rw [hg hok]
    exact ⟨rfl, rfl⟩
  · rw [hl hok]
    exact ⟨rfl, rfl⟩

/-- Witness for C8: a concrete successful general capture produces the
10-field row with status `Novo` at position 8. -/
theorem claim_C8_ten_field_rows_witness :
    WebhookApi.captura_imovel_geral
        [("user_name", PyVal.str "Ana".toList), ("user_phone", PyVal.str "21999".toList),
         ("imovel_referencia", PyVal.str "CA123".toList),
         ("visit_interest", PyVal.str "Sim".toList), ("summary", PyVal.str "ok".toList)]
        "t".toList "i".toList = Except.ok
      [PyVal.str "t".toList, PyVal.str "Ana".toList, PyVal.str "21999".toList,
       PyVal.str "CA123".toList, PyVal.str "Sim".toList, PyVal.str "ok".toList,
       PyVal.str "IA Gabriela - Imóvel".toList, PyVal.str "i".toList,
       PyVal.str "Novo".toList, PyVal.str "Casa".toList] ∧
    [PyVal.str "t".toList, PyVal.str "Ana".toList, PyVal.str "21999".toList,
     PyVal.str "CA123".toList, PyVal.str "Sim".toList, PyVal.str "ok".toList,
     PyVal.str "IA Gabriela - Imóvel".toList, PyVal.str "i".toList,
     PyVal.str "Novo".toList, PyVal.str "Casa".toList].length = 10 ∧
    [PyVal.str "t".toList, PyVal.str "Ana".toList, PyVal.str "21999".toList,
     PyVal.str "CA123".toList, PyVal.str "Sim".toList, PyVal.str "ok".toList,
     PyVal.str "IA Gabriela - Imóvel".toList, PyVal.str "i".toList,
     PyVal.str "Novo".toList, PyVal.str "Casa".toList].get? 8 =
      some (PyVal.str "Novo".toList) := by
  have h := (claim_C8_ten_field_rows.2.2
      [("user_name", PyVal.str "Ana".toList), ("user_phone", PyVal.str "21999".toList),
       ("imovel_referencia", PyVal.str "CA123".toList),
       ("visit_interest", PyVal.str "Sim".toList), ("summary", PyVal.str "ok".toList)]
      "t".toList "i".toList
      [PyVal.str "t".toList, PyVal.str "Ana".toList, PyVal.str "21999".toList,
       PyVal.str "CA123".toList, PyVal.str "Sim".toList, PyVal.str "ok".toList,
       PyVal.str "IA Gabriela - Imóvel".toList, PyVal.str "i".toList,
       PyVal.str "Novo".toList, PyVal.str "Casa".toList]).2.2 (Or.inl rfl)
  exact ⟨rfl, h.1, h.2⟩

/-- C10: a required field bound to a falsy value (false, 0, null, or the empty
string) is treated exactly like an absent field by both endpoints: the payload
is rejected with a validation error (naming that field when it is the only
invalid one), and no row is produced. -/
theorem claim_C10_falsy_treated_as_absent (p : Payload) (ts idv : List Char)
    (f : String) (v : PyVal) (hlk : List.lookup f p = some v)
    (htr : pyTruthy v = false) :
    (f ∈ WebhookApi.requiredGeral →
      (∀ row, WebhookApi.captura_imovel_geral p ts idv ≠ Except.ok row) ∧
      ((∀ g ∈ WebhookApi.requiredGeral, g ≠ f → WebhookApi.fieldOk p g = true) →
        WebhookApi.captura_imovel_geral p ts idv =
          Except.error (WebhookApi.ApiError.missingField f))) ∧
    (f ∈ WebhookApi.requiredLanc →
      (∀ row, WebhookApi.captura_lancamento p ts idv ≠ Except.ok row) ∧
      ((∀ g ∈ WebhookApi.requiredLanc, g ≠ f → WebhookApi.fieldOk p g = true) →
        WebhookApi.captura_lancamento p ts idv =
          Except.error (WebhookApi.ApiError.missingField f))) := by
  have hbad : WebhookApi.fieldOk p f = false := by
    unfold WebhookApi.fieldOk
    rw [hlk]
    exact htr
  constructor
  · intro hmem
    constructor
    · intro row hok
      unfold WebhookApi.captura_imovel_geral at hok
      cases hfb : WebhookApi.firstBad p WebhookApi.requiredGeral with
      | none =>
        unfold WebhookApi.firstBad at hfb
        have hall := List.find?_eq_none.mp hfb f hmem
        simp [hbad] at hall
      | some g =>
        rw [hfb] at hok
        exact Except.noConfusion hok
    · intro hothers
      have hf5 : f = "user_name" ∨ f = "user_phone" ∨ f = "imovel_referencia" ∨
          f = "visit_interest" ∨ f = "summary" := by
        simpa [WebhookApi.requiredGeral] using hmem
      rcases hf5 with rfl | rfl | rfl | rfl | rfl
      · exact WebhookApi.captura_geral_error p ts idv _
          (WebhookApi.firstBad_split p _ _ [] _ rfl hbad (by intro g hg; simp at hg))
      · exact WebhookApi.captura_geral_error p ts idv _
          (WebhookApi.firstBad_split p _ _ ["user_name"] _ rfl hbad
            (by intro g hg; fin_cases hg <;> exact hothers _ (by decide) (by decide)))
      · exact WebhookApi.captura_geral_error p ts idv _
          (WebhookApi.firstBad_split p _ _ ["user_name", "user_phone"] _ rfl hbad
            (by intro g hg; fin_cases hg <;> exact hothers _ (by decide) (by decide)))
      · exact WebhookApi.captura_geral_error p ts idv _
          (WebhookApi.firstBad_split p _ _ ["user_name", "user_phone", "imovel_referencia"]
            _ rfl hbad
            (by intro g hg; fin_cases hg <;> exact hothers _ (by decide) (by decide)))
      · exact WebhookApi.captura_geral_error p ts idv _
          (WebhookApi.firstBad_split p _ _
            ["user_name", "user_phone", "imovel_referencia", "visit_interest"] _ rfl hbad
            (by intro g hg; fin_cases hg <;> exact hothers _ (by decide) (by decide)))
  · intro hmem
    constructor
    · intro row hok
      unfold WebhookApi.captura_lancamento at hok
      cases hfb : WebhookApi.firstBad p WebhookApi.requiredLanc with
      | none =>
        unfold WebhookApi.firstBad at hfb
        have hall := List.find?_eq_none.mp hfb f hmem
        simp [hbad] at hall
      | some g =>
        rw [hfb] at hok
        exact Except.noConfusion hok
    · intro hothers
      have hf5 : f = "user_name" ∨ f = "user_phone" ∨ f = "lancamento" ∨
          f = "visit_interest" ∨ f = "summary" := by
        simpa [WebhookApi.requiredLanc] using hmem
      rcases hf5 with rfl | rfl | rfl | rfl | rfl
      · exact WebhookApi.captura_lanc_error p ts idv _
          (WebhookApi.firstBad_split p _ _ [] _ rfl hbad (by intro g hg; simp at hg))
      · exact WebhookApi.captura_lanc_error p ts idv _
          (WebhookApi.firstBad_split p _ _ ["user_name"] _ rfl hbad
            (by intro g hg; fin_cases hg <;> exact hothers _ (by decide) (by decide)))
      · exact WebhookApi.captura_lanc_error p ts idv _
          (WebhookApi.firstBad_split p _ _ ["user_name", "user_phone"] _ rfl hbad
            (by intro g hg; fin_cases hg <;> exact hothers _ (by decide) (by decide)))
      · exact WebhookApi.captura_lanc_error p ts idv _
          (WebhookApi.firstBad_split p _ _ ["user_name", "user_phone", "lancamento"]
            _ rfl hbad
            (by intro g hg; fin_cases hg <;> exact hothers _ (by decide) (by decide)))
      · exact WebhookApi.captura_lanc_error p ts idv _
          (WebhookApi.firstBad_split p _ _
            ["user_name", "user_phone", "lancamento", "visit_interest"] _ rfl hbad
            (by intro g hg; fin_cases hg <;> exact hothers _ (by decide) (by decide)))

/-- Witness for C10: a payload whose `visit_interest` is JSON `false` (all
other fields valid for both endpoints) is rejected by both endpoints with an
error naming `visit_interest`. -/
theorem claim_C10_falsy_treated_as_absent_witness :
    pyTruthy (PyVal.bool false) = false ∧
    WebhookApi.captura_imovel_geral
        [("user_name", PyVal.str "Ana".toList), ("user_phone", PyVal.str "21999".toList),
         ("imovel_referencia", PyVal.str "CA123".toList),
         ("lancamento", PyVal.str "Wind Oceanica".toList),
         ("visit_interest", PyVal.bool false), ("summary", PyVal.str "ok".toList)]
        "t".toList "i".toList =
      Except.error (WebhookApi.ApiError.missingField "visit_interest") ∧
    WebhookApi.captura_lancamento
        [("user_name", PyVal.str "Ana".toList), ("user_phone", PyVal.str "21999".toList),
         ("imovel_referencia", PyVal.str "CA123".toList),
         ("lancamento", PyVal.str "Wind Oceanica".toList),
         ("visit_interest", PyVal.bool false), ("summary", PyVal.str "ok".toList)]
        "t".toList "i".toList =
      Except.error (WebhookApi.ApiError.missingField "visit_interest") := by
  have h := claim_C10_falsy_treated_as_absent
    [("user_name", PyVal.str "Ana".toList), ("user_phone", PyVal.str "21999".toList),
     ("imovel_referencia", PyVal.str "CA123".toList),
     ("lancamento", PyVal.str "Wind Oceanica".toList),
     ("visit_interest", PyVal.bool false), ("summary", PyVal.str "ok".toList)]
    "t".toList "i".toList "visit_interest" (PyVal.bool false) (by decide) (by decide)
  exact ⟨rfl, (h.1 (by decide)).2 (by decide), (h.2 (by decide)).2 (by decide)⟩

/-! Helper lemmas about the aggregation endpoint. -/

namespace WebhookApi

/-- Field values of a non-empty aggregation run: the interest rate reported by
the endpoint is the integer-rounded percentage. -/
lemma dados_dashboard_taxa (rs : List Rec) (t : List Char) (h : rs ≠ []) :
    (dados_dashboard rs t).taxa_interesse =
      some ((pyRound ((rs.countP isInteresse : ℚ) / (rs.length : ℚ) * 100) : Int) : ℚ) := by
  unfold dados_dashboard
  rw [if_neg h]
  have hl : 0 < rs.length := List.length_pos.mpr h
  simp [hl]

/-- The `wind_oceanica` field of a non-empty aggregation run. -/
lemma dados_dashboard_wind (rs : List Rec) (t : List Char) (h : rs ≠ []) :
    (dados_dashboard rs t).wind_oceanica = some (refCount rs "Wind Oceanica".toList) := by
  unfold dados_dashboard
  rw [if_neg h]

/-- The `tresor_camboinhas` field of a non-empty aggregation run. -/
lemma dados_dashboard_tresor (rs : List Rec) (t : List Char) (h : rs ≠ []) :
    (dados_dashboard rs t).tresor_camboinhas =
      some (refCount rs "Tresor Camboinhas".toList) := by
  unfold dados_dashboard
  rw [if_neg h]

/-- The `ultima_atualizacao` field is the clock reading on non-empty data and
absent on empty data. -/
lemma dados_dashboard_ultima (rs : List Rec) (t : List Char) :
    (dados_dashboard rs t).ultima_atualizacao =
      if rs = [] then Option.none else some t := by
  unfold dados_dashboard
  by_cases h : rs = []
  · rw [if_pos h, if_pos h]
  · rw [if_neg h, if_neg h]

/-- `refCount` depends only on the `Imóvel/Referência` column. -/
lemma refCount_map_eq (rs rs2 : List Rec) (name : List Char)
    (hmap : rs.map (fun r => List.lookup "Imóvel/Referência" r) =
      rs2.map (fun r => List.lookup "Imóvel/Referência" r)) :
    refCount rs name = refCount rs2 name := by
  unfold refCount
  calc rs.countP (fun r => List.lookup "Imóvel/Referência" r == some (PyVal.str name))
      = (rs.map (fun r => List.lookup "Imóvel/Referência" r)).countP
          (fun o => o == some (PyVal.str name)) := by
        rw [List.countP_map]
        rfl
    _ = (rs2.map (fun r => List.lookup "Imóvel/Referência" r)).countP
          (fun o => o == some (PyVal.str name)) := by rw [hmap]
    _ = rs2.countP (fun r => List.lookup "Imóvel/Referência" r == some (PyVal.str name)) := by
        rw [List.countP_map]
        rfl

end WebhookApi

/-- C3 as amended: on non-empty data the `dados-dashboard` endpoint reports
`taxa_interesse` as the interest percentage rounded to an integer
(`round(x)`, half-to-even), which equals the integer rounding of the
unrounded rate the dashboard computes; the dashboard itself keeps the rate
unrounded (one-decimal rounding happens only in its display formatting). -/
theorem claim_C3_interest_rate_amended (records : List Rec) (now : List Char)
    (h : records ≠ []) :
    (WebhookApi.dados_dashboard records now).taxa_interesse =
      some ((pyRound (DashboardStreamlit.taxa_interesse records) : Int) : ℚ) ∧
    DashboardStreamlit.taxa_interesse records =
      (records.countP DashboardStreamlit.interesse_bool : ℚ) / (records.length : ℚ) * 100 := by
  have hl : 0 < records.length := List.length_pos.mpr h
  constructor
  · rw [WebhookApi.dados_dashboard_taxa records now h]
    unfold DashboardStreamlit.taxa_interesse
    rw [if_pos hl]
    rfl
  · unfold DashboardStreamlit.taxa_interesse
    rw [if_pos hl]

/-- Counterexample for C3 as stated: on the 3-record example with 2 interested,
the endpoint reports 67 (integer rounding), not the claimed
`round(2/3*100, 1) = 66.7`. -/
theorem claim_C3_interest_rate_counterexample :
    (WebhookApi.dados_dashboard exampleThreeRecords "t".toList).taxa_interesse =
      some 67 ∧
    pyRound1 ((2 : ℚ) / 3 * 100) = 667 / 10 ∧
    (67 : ℚ) ≠ 667 / 10 := by
  refine ⟨?_, ?_, by norm_num⟩
  · rw [WebhookApi.dados_dashboard_taxa exampleThreeRecords "t".toList (by decide),
      show exampleThreeRecords.countP WebhookApi.isInteresse = 2 from by decide,
      show exampleThreeRecords.length = 3 from rfl]
    norm_num [pyRound]
  · norm_num [pyRound1, pyRound]

/-- Witness for C3 as amended at the 3-record example: the endpoint reports
67 while the dashboard holds the unrounded 200/3 (displayed as 66.7). -/
theorem claim_C3_interest_rate_witness :
    exampleThreeRecords ≠ [] ∧
    (WebhookApi.dados_dashboard exampleThreeRecords "t".toList).taxa_interesse =
      some 67 ∧
    DashboardStreamlit.taxa_interesse exampleThreeRecords = 200 / 3 := by
  have h := claim_C3_interest_rate_amended exampleThreeRecords "t".toList (by decide)
  have hdash : DashboardStreamlit.taxa_interesse exampleThreeRecords = 200 / 3 := by
    rw [h.2, show exampleThreeRecords.countP DashboardStreamlit.interesse_bool = 2 from
      by decide, show exampleThreeRecords.length = 3 from rfl]
    norm_num
  refine ⟨by decide, ?_, hdash⟩
  rw [h.1, hdash]
  norm_num [pyRound]

/-- C4 as amended: the aggregation is a pure function of the stored records and
the clock reading; every field except `ultima_atualizacao` depends only on the
records (two runs on the same records agree on all of them), while
`ultima_atualizacao` is the clock reading of the run (absent on empty data),
so two runs at different clock times differ in that field alone. -/
theorem claim_C4_aggregation_deterministic_amended (records : List Rec)
    (t1 t2 : List Char) :
    stripTime (WebhookApi.dados_dashboard records t1) =
      stripTime (WebhookApi.dados_dashboard records t2) ∧
    (WebhookApi.dados_dashboard records t1).ultima_atualizacao =
      (if records = [] then Option.none else some t1) := by
  refine ⟨?_, WebhookApi.dados_dashboard_ultima records t1⟩
  unfold WebhookApi.dados_dashboard
  by_cases h : records = []
  · rw [if_pos h, if_pos h]
  · rw [if_neg h, if_neg h]
    rfl

/-- Counterexample for C4 as stated: two runs on the identical one-record
collection but at different clock readings give different outputs, because
`ultima_atualizacao` is `format_timestamp()` — the wall clock — not a
function of the input records. -/
theorem claim_C4_aggregation_deterministic_counterexample :
    WebhookApi.dados_dashboard [[("Interesse Visita", PyVal.str "Sim".toList)]]
        "01/01/2024 10:00:00".toList ≠
      WebhookApi.dados_dashboard [[("Interesse Visita", PyVal.str "Sim".toList)]]
        "01/01/2024 10:00:01".toList := by
  intro h
  have h2 : some "01/01/2024 10:00:00".toList = some "01/01/2024 10:00:01".toList := by
    have e1 := WebhookApi.dados_dashboard_ultima
      [[("Interesse Visita", PyVal.str "Sim".toList)]] "01/01/2024 10:00:00".toList
    have e2 := WebhookApi.dados_dashboard_ultima
      [[("Interesse Visita", PyVal.str "Sim".toList)]] "01/01/2024 10:00:01".toList
    rw [if_neg (by decide)] at e1
    rw [if_neg (by decide)] at e2
    rw [← e1, ← e2, h]
  exact absurd (Option.some.inj h2) (by decide)

/-- C5 as amended: on an empty record collection the `dados-dashboard`
endpoint returns early with status 200, `total_leads = 0` and an empty
`dados` list only; `taxa_interesse`, `interesse_visita`, the per-type counts
and the campaign counts are omitted from the response entirely (no division
is attempted). -/
theorem claim_C5_empty_aggregate_amended (now : List Char) :
    WebhookApi.dados_dashboard [] now =
      WebhookApi.DashboardResponse.mk 200 0 Option.none Option.none Option.none
        Option.none Option.none [] Option.none := rfl

/-- Counterexample for C5 as stated: on empty data the endpoint does return
`total_leads = 0`, but it omits `taxa_interesse` (and the groupings) instead
of returning them as zero/empty values. -/
theorem claim_C5_empty_aggregate_counterexample :
    (WebhookApi.dados_dashboard [] "t".toList).total_leads = 0 ∧
    (WebhookApi.dados_dashboard [] "t".toList).taxa_interesse = Option.none ∧
    (WebhookApi.dados_dashboard [] "t".toList).tipos_imovel = Option.none ∧
    (WebhookApi.dados_dashboard [] "t".toList).wind_oceanica = Option.none ∧
    (Option.none : Option ℚ) ≠ some 0 := by
  refine ⟨rfl, rfl, rfl, rfl, ?_⟩
  simp

/-- C9: the named-campaign counts of the aggregation count exactly the records
whose `Imóvel/Referência` cell is string-equal to `Wind Oceanica` or
`Tresor Camboinhas`; they are a function of the reference column alone, so
changing any other field — in particular `Tipo Imóvel` — never changes them. -/
theorem claim_C9_campaign_counts_reference_only (rs rs2 : List Rec)
    (t t2 : List Char)
    (hmap : rs.map (fun r => List.lookup "Imóvel/Referência" r) =
      rs2.map (fun r => List.lookup "Imóvel/Referência" r)) :
    (WebhookApi.dados_dashboard rs t).wind_oceanica =
      (WebhookApi.dados_dashboard rs2 t2).wind_oceanica ∧
    (WebhookApi.dados_dashboard rs t).tresor_camboinhas =
      (WebhookApi.dados_dashboard rs2 t2).tresor_camboinhas ∧
    (rs ≠ [] →
      (WebhookApi.dados_dashboard rs t).wind_oceanica =
        some (rs.countP fun r =>
          List.lookup "Imóvel/Referência" r == some (PyVal.str "Wind Oceanica".toList)) ∧
      (WebhookApi.dados_dashboard rs t).tresor_camboinhas =
        some (rs.countP fun r =>
          List.lookup "Imóvel/Referência" r == some (PyVal.str "Tresor Camboinhas".toList))) := by
  by_cases h : rs = []
  · have h2 : rs2 = [] := by
      rw [h] at hmap
      exact List.map_eq_nil_iff.mp hmap.symm
    subst h
    subst h2
    exact ⟨rfl, rfl, fun hne => absurd rfl hne⟩
  · have h2 : rs2 ≠ [] := by
      intro e
      rw [e] at hmap
      exact h (List.map_eq_nil_iff.mp hmap)
    refine ⟨?_, ?_, ?_⟩
    · rw [WebhookApi.dados_dashboard_wind rs t h, WebhookApi.dados_dashboard_wind rs2 t2 h2,
        WebhookApi.refCount_map_eq rs rs2 _ hmap]
    · rw [WebhookApi.dados_dashboard_tresor rs t h,
        WebhookApi.dados_dashboard_tresor rs2 t2 h2,
        WebhookApi.refCount_map_eq rs rs2 _ hmap]
    · intro _
      exact ⟨WebhookApi.dados_dashboard_wind rs t h,
        WebhookApi.dados_dashboard_tresor rs t h⟩

/-- Witness for C9: two one-record collections with the same
`Imóvel/Referência` (`Wind Oceanica`) but different `Tipo Imóvel` values get
the same campaign count of 1. -/
theorem claim_C9_campaign_counts_reference_only_witness :
    (WebhookApi.dados_dashboard
        [[("Imóvel/Referência", PyVal.str "Wind Oceanica".toList),
          ("Tipo Imóvel", PyVal.str "Lançamento".toList)]] "t".toList).wind_oceanica =
      (WebhookApi.dados_dashboard
        [[("Imóvel/Referência", PyVal.str "Wind Oceanica".toList),
          ("Tipo Imóvel", PyVal.str "Casa".toList)]] "u".toList).wind_oceanica ∧
    (WebhookApi.dados_dashboard
        [[("Imóvel/Referência", PyVal.str "Wind Oceanica".toList),
          ("Tipo Imóvel", PyVal.str "Lançamento".toList)]] "t".toList).wind_oceanica =
      some 1 := by
  have h := claim_C9_campaign_counts_reference_only
    [[("Imóvel/Referência", PyVal.str "Wind Oceanica".toList),
      ("Tipo Imóvel", PyVal.str "Lançamento".toList)]]
    [[("Imóvel/Referência", PyVal.str "Wind Oceanica".toList),
      ("Tipo Imóvel", PyVal.str "Casa".toList)]]
    "t".toList "u".toList (by decide)
  refine ⟨h.1, ?_⟩
  rw [(h.2.2 (by decide)).1]
  decide
